import Mathlib

set_option maxRecDepth 8000

namespace Musashi

/-! Shallow embedding of the Musashi m68040 FPU subsystem (src/m68kfpu.c).
Machine integers are modelled as `Nat` with explicit truncation `% 2 ^ w`
at the points where the C code truncates.  Fatal decode errors
(`fatalerror`) are modelled as `none` of an `Option` result. -/

/-- FPSR condition-code bit for Negative, from the C macro FPCC_N. -/
def FPCC_N : Nat := 0x08000000

/-- FPSR condition-code bit for Zero, from the C macro FPCC_Z. -/
def FPCC_Z : Nat := 0x04000000

/-- FPSR condition-code bit for Infinity, from the C macro FPCC_I. -/
def FPCC_I : Nat := 0x02000000

/-- FPSR condition-code bit for NaN, from the C macro FPCC_NAN. -/
def FPCC_NAN : Nat := 0x01000000

/-- Bit pattern of a double-precision infinity (C macro DOUBLE_INFINITY). -/
def DOUBLE_INFINITY : Nat := 0x7ff0000000000000

/-- Exponent-field mask of a double (C macro DOUBLE_EXPONENT). -/
def DOUBLE_EXPONENT : Nat := 0x7ff0000000000000

/-- Mantissa-field mask of a double (C macro DOUBLE_MANTISSA). -/
def DOUBLE_MANTISSA : Nat := 0x000fffffffffffff

/-- First step of SET_CONDITION_CODES: the sign flag, set when bit 63
of the result pattern is set. -/
def setFlagN (x f : Nat) : Nat :=
  if x &&& 0x8000000000000000 ≠ 0 then f ||| FPCC_N else f

/-- Second step of SET_CONDITION_CODES: the zero flag, set when all bits
of the pattern except the sign bit are zero. -/
def setFlagZ (x f : Nat) : Nat :=
  if x &&& 0x7fffffffffffffff = 0 then f ||| FPCC_Z else f

/-- Third step of SET_CONDITION_CODES: the infinity flag. -/
def setFlagI (x f : Nat) : Nat :=
  if x &&& 0x7fffffffffffffff = DOUBLE_INFINITY then f ||| FPCC_I else f

/-- Fourth step of SET_CONDITION_CODES: the NaN flag. -/
def setFlagNAN (x f : Nat) : Nat :=
  if x &&& DOUBLE_EXPONENT = DOUBLE_EXPONENT ∧ x &&& DOUBLE_MANTISSA ≠ 0 then
    f ||| FPCC_NAN
  else f

/-- SET_CONDITION_CODES from src/m68kfpu.c: clears the four FPSR
condition-code bits, then sets each of N, Z, I, NaN from the raw 64-bit
pattern `x` of the result register.  `0xf0ffffff` is the 32-bit
complement of `FPCC_N ||| FPCC_Z ||| FPCC_I ||| FPCC_NAN`. -/
def SET_CONDITION_CODES (fpsr x : Nat) : Nat :=
  setFlagNAN x (setFlagI x (setFlagZ x (setFlagN x (fpsr &&& 0xf0ffffff))))

/-- TEST_CONDITION from src/m68kfpu.c: evaluates a predicate code against
the FPSR condition codes; unlisted codes are a fatal decode error. -/
def TEST_CONDITION (fpsr : Nat) (condition : Nat) : Option Bool :=
  let n := decide (fpsr &&& FPCC_N ≠ 0)
  let z := decide (fpsr &&& FPCC_Z ≠ 0)
  let nan := decide (fpsr &&& FPCC_NAN ≠ 0)
  if condition = 0x00 then some false
  else if condition = 0x01 then some z
  else if condition = 0x0e then some (!z)
  else if condition = 0x0f then some true
  else if condition = 0x12 then some (!(nan || z || n))
  else if condition = 0x13 then some (z || !(nan || n))
  else if condition = 0x14 then some (n && !(nan || z))
  else if condition = 0x15 then some (z || (n && !nan))
  else if condition = 0x1a then some (nan || !(n || z))
  else if condition = 0x1b then some (nan || z || !n)
  else if condition = 0x1c then some (nan || (n && !z))
  else if condition = 0x1d then some (nan || z || n)
  else none

/-- Follows the spec's words: the predicate table of spec section 4.2,
written over the three flag booleans N, Z, NaN; codes outside the table
are a fatal decode error. -/
def evaluatePredicate (n z nan : Bool) (code : Nat) : Option Bool :=
  if code = 0x00 then some false
  else if code = 0x01 then some z
  else if code = 0x0e then some (!z)
  else if code = 0x0f then some true
  else if code = 0x12 then some (!(nan || z || n))
  else if code = 0x13 then some (z || !(nan || n))
  else if code = 0x14 then some (n && !(nan || z))
  else if code = 0x15 then some (z || (n && !nan))
  else if code = 0x1a then some (nan || !(n || z))
  else if code = 0x1b then some (nan || z || !n)
  else if code = 0x1c then some (nan || (n && !z))
  else if code = 0x1d then some (nan || z || n)
  else none

/-- List of the predicate codes handled by TEST_CONDITION. -/
def handledPredicates : List Nat :=
  [0x00, 0x01, 0x0e, 0x0f, 0x12, 0x13, 0x14, 0x15, 0x1a, 0x1b, 0x1c, 0x1d]

/-- Processor state touched by the FPU subsystem: the register file view,
control registers, the first opcode word REG_IR, the program counter,
byte-addressed memory, the cycle accumulator, and a flag recording that
single-step trace suppression was reset (m68ki_trace_t0). -/
structure FpuState where
  REG_D : Nat → Nat
  REG_A : Nat → Nat
  REG_FP : Nat → Nat
  REG_FPSR : Nat
  REG_FPCR : Nat
  REG_FPIAR : Nat
  REG_IR : Nat
  REG_PC : Nat
  mem : Nat → Nat
  cycles : Nat
  traceT0Reset : Bool

/-- Modelled from the spec: readMemory at width 8 (section 6); memory is a
byte map, addresses are 32-bit. -/
def m68ki_read_8 (m : Nat → Nat) (a : Nat) : Nat := m (a % 2 ^ 32) % 2 ^ 8

/-- Modelled from the spec: readMemory at width 16, big-endian. -/
def m68ki_read_16 (m : Nat → Nat) (a : Nat) : Nat :=
  m68ki_read_8 m a * 2 ^ 8 + m68ki_read_8 m (a + 1)

/-- Modelled from the spec: readMemory at width 32, big-endian. -/
def m68ki_read_32 (m : Nat → Nat) (a : Nat) : Nat :=
  m68ki_read_16 m a * 2 ^ 16 + m68ki_read_16 m (a + 2)

/-- Modelled from the spec: writeMemory at width 8 (section 6). -/
def m68ki_write_8 (m : Nat → Nat) (a v : Nat) : Nat → Nat :=
  fun x => if x = a % 2 ^ 32 then v % 2 ^ 8 else m x

/-- Modelled from the spec: writeMemory at width 16, big-endian. -/
def m68ki_write_16 (m : Nat → Nat) (a v : Nat) : Nat → Nat :=
  m68ki_write_8 (m68ki_write_8 m a (v / 2 ^ 8)) (a + 1) v

/-- Modelled from the spec: writeMemory at width 32, big-endian. -/
def m68ki_write_32 (m : Nat → Nat) (a v : Nat) : Nat → Nat :=
  m68ki_write_16 (m68ki_write_16 m a (v / 2 ^ 16)) (a + 2) v

/-- Sign extension of an 8-bit value to a signed integer. -/
def signExt8 (v : Nat) : Int :=
  if v % 2 ^ 8 < 2 ^ 7 then (v % 2 ^ 8 : Int) else (v % 2 ^ 8 : Int) - 2 ^ 8

/-- Sign extension of a 16-bit value to a signed integer. -/
def signExt16 (v : Nat) : Int :=
  if v % 2 ^ 16 < 2 ^ 15 then (v % 2 ^ 16 : Int) else (v % 2 ^ 16 : Int) - 2 ^ 16

/-- Sign extension of a 32-bit value to a signed integer. -/
def signExt32 (v : Nat) : Int :=
  if v % 2 ^ 32 < 2 ^ 31 then (v % 2 ^ 32 : Int) else (v % 2 ^ 32 : Int) - 2 ^ 32

/-- Wraps a signed integer into an unsigned 32-bit value. -/
def wrapInt32 (i : Int) : Nat := (i % 2 ^ 32).toNat

/-- Modelled from the spec: nextInstructionWord (section 6) — consumes and
returns the next 16-bit word of the instruction stream, advancing PC. -/
def OPER_I_16 (s : FpuState) : Nat × FpuState :=
  (m68ki_read_16 s.mem s.REG_PC, { s with REG_PC := (s.REG_PC + 2) % 2 ^ 32 })

/-- Modelled from the spec: two consecutive instruction words forming a
32-bit immediate, most-significant word first. -/
def OPER_I_32 (s : FpuState) : Nat × FpuState :=
  (m68ki_read_32 s.mem s.REG_PC, { s with REG_PC := (s.REG_PC + 4) % 2 ^ 32 })

/-- Modelled from the spec: an 8-bit immediate occupies one full 16-bit
extension word (section 4.1); the low byte is the operand. -/
def OPER_I_8 (s : FpuState) : Nat × FpuState :=
  let p := OPER_I_16 s
  (p.1 % 2 ^ 8, p.2)

/-- Modelled from the spec: postincrement addressing helper at width 1;
the address is the prior register value, the register then advances. -/
def EA_AY_PI_8 (s : FpuState) (reg : Nat) : Nat × FpuState :=
  (s.REG_A reg,
    { s with REG_A := Function.update s.REG_A reg ((s.REG_A reg + 1) % 2 ^ 32) })

/-- Modelled from the spec: postincrement addressing helper at width 2. -/
def EA_AY_PI_16 (s : FpuState) (reg : Nat) : Nat × FpuState :=
  (s.REG_A reg,
    { s with REG_A := Function.update s.REG_A reg ((s.REG_A reg + 2) % 2 ^ 32) })

/-- Modelled from the spec: postincrement addressing helper at width 4. -/
def EA_AY_PI_32 (s : FpuState) (reg : Nat) : Nat × FpuState :=
  (s.REG_A reg,
    { s with REG_A := Function.update s.REG_A reg ((s.REG_A reg + 4) % 2 ^ 32) })

/-- Modelled from the spec: predecrement addressing helper at width 1;
the register is decremented first and the new value is the address. -/
def EA_AY_PD_8 (s : FpuState) (reg : Nat) : Nat × FpuState :=
  let a := (s.REG_A reg + (2 ^ 32 - 1)) % 2 ^ 32
  (a, { s with REG_A := Function.update s.REG_A reg a })

/-- Modelled from the spec: predecrement addressing helper at width 2. -/
def EA_AY_PD_16 (s : FpuState) (reg : Nat) : Nat × FpuState :=
  let a := (s.REG_A reg + (2 ^ 32 - 2)) % 2 ^ 32
  (a, { s with REG_A := Function.update s.REG_A reg a })

/-- Modelled from the spec: predecrement addressing helper at width 4. -/
def EA_AY_PD_32 (s : FpuState) (reg : Nat) : Nat × FpuState :=
  let a := (s.REG_A reg + (2 ^ 32 - 4)) % 2 ^ 32
  (a, { s with REG_A := Function.update s.REG_A reg a })

/-- Modelled from the spec: indirect-plus-displacement addressing — the
address register plus a sign-extended 16-bit displacement consumed from
the instruction stream (section 4.1). -/
def EA_AY_DI (s : FpuState) (reg : Nat) : Nat × FpuState :=
  let p := OPER_I_16 s
  (wrapInt32 ((s.REG_A reg : Int) + signExt16 p.1), p.2)

/-- Modelled from the spec: indexed addressing — address register plus an
index-register contribution plus a sign-extended 8-bit displacement, all
taken from one consumed extension word (section 4.1). -/
def EA_AY_IX (s : FpuState) (reg : Nat) : Nat × FpuState :=
  let p := OPER_I_16 s
  let w := p.1
  let xr := (w >>> 12) &&& 7
  let xvRaw := if (w >>> 15) &&& 1 = 1 then s.REG_A xr else s.REG_D xr
  let xv : Int := if (w >>> 11) &&& 1 = 1 then (xvRaw : Int) else signExt16 xvRaw
  (wrapInt32 ((s.REG_A reg : Int) + xv + signExt8 w), p.2)

/-- Modelled from the spec: PC-relative displacement addressing — address
relative to the program counter at the time the extension word was
fetched (section 4.1). -/
def EA_PCDI (s : FpuState) : Nat × FpuState :=
  let pc := s.REG_PC
  let p := OPER_I_16 s
  (wrapInt32 ((pc : Int) + signExt16 p.1), p.2)

/-- USE_CYCLES: accumulates the emulated cycle cost. -/
def USE_CYCLES (s : FpuState) (n : Nat) : FpuState :=
  { s with cycles := s.cycles + n }

/-- READ_EA_8 from src/m68kfpu.c.  Unhandled modes are fatal (`none`). -/
def READ_EA_8 (s : FpuState) (ea_ : Nat) : Option (Nat × FpuState) :=
  let mode := (ea_ >>> 3) &&& 7
  let reg := ea_ &&& 7
  if mode = 0 then some (s.REG_D reg % 2 ^ 8, s)
  else if mode = 2 then some (m68ki_read_8 s.mem (s.REG_A reg), s)
  else if mode = 5 then
    let p := EA_AY_DI s reg
    some (m68ki_read_8 p.2.mem p.1, p.2)
  else if mode = 6 then
    let p := EA_AY_IX s reg
    some (m68ki_read_8 p.2.mem p.1, p.2)
  else if mode = 7 then
    if reg = 0 then
      let p := OPER_I_16 s
      some (m68ki_read_8 p.2.mem p.1, p.2)
    else if reg = 1 then
      let p1 := OPER_I_16 s
      let p2 := OPER_I_16 p1.2
      some (m68ki_read_8 p2.2.mem ((p1.1 <<< 16) ||| p2.1), p2.2)
    else if reg = 4 then
      let p := OPER_I_8 s
      some (p.1, p.2)
    else none
  else none

/-- READ_EA_16 from src/m68kfpu.c. -/
def READ_EA_16 (s : FpuState) (ea_ : Nat) : Option (Nat × FpuState) :=
  let mode := (ea_ >>> 3) &&& 7
  let reg := ea_ &&& 7
  if mode = 0 then some (s.REG_D reg % 2 ^ 16, s)
  else if mode = 2 then some (m68ki_read_16 s.mem (s.REG_A reg), s)
  else if mode = 5 then
    let p := EA_AY_DI s reg
    some (m68ki_read_16 p.2.mem p.1, p.2)
  else if mode = 6 then
    let p := EA_AY_IX s reg
    some (m68ki_read_16 p.2.mem p.1, p.2)
  else if mode = 7 then
    if reg = 0 then
      let p := OPER_I_16 s
      some (m68ki_read_16 p.2.mem p.1, p.2)
    else if reg = 1 then
      let p1 := OPER_I_16 s
      let p2 := OPER_I_16 p1.2
      some (m68ki_read_16 p2.2.mem ((p1.1 <<< 16) ||| p2.1), p2.2)
    else if reg = 4 then
      let p := OPER_I_16 s
      some (p.1, p.2)
    else none
  else none

/-- READ_EA_32 from src/m68kfpu.c.  Note the absence of a register-direct
case for address registers (mode 1): that mode is a fatal decode error. -/
def READ_EA_32 (s : FpuState) (ea_ : Nat) : Option (Nat × FpuState) :=
  let mode := (ea_ >>> 3) &&& 7
  let reg := ea_ &&& 7
  if mode = 0 then some (s.REG_D reg, s)
  else if mode = 2 then some (m68ki_read_32 s.mem (s.REG_A reg), s)
  else if mode = 3 then
    let p := EA_AY_PI_32 s reg
    some (m68ki_read_32 p.2.mem p.1, p.2)
  else if mode = 5 then
    let p := EA_AY_DI s reg
    some (m68ki_read_32 p.2.mem p.1, p.2)
  else if mode = 6 then
    let p := EA_AY_IX s reg
    some (m68ki_read_32 p.2.mem p.1, p.2)
  else if mode = 7 then
    if reg = 0 then
      let p := OPER_I_16 s
      some (m68ki_read_32 p.2.mem p.1, p.2)
    else if reg = 1 then
      let p1 := OPER_I_16 s
      let p2 := OPER_I_16 p1.2
      some (m68ki_read_32 p2.2.mem ((p1.1 <<< 16) ||| p2.1), p2.2)
    else if reg = 2 then
      let p := EA_PCDI s
      some (m68ki_read_32 p.2.mem p.1, p.2)
    else if reg = 4 then
      let p := OPER_I_32 s
      some (p.1, p.2)
    else none
  else none

/-- READ_EA_64 from src/m68kfpu.c.  In postincrement mode the address is
the prior register value and the register then advances by 8. -/
def READ_EA_64 (s : FpuState) (ea_ : Nat) : Option (Nat × FpuState) :=
  let mode := (ea_ >>> 3) &&& 7
  let reg := ea_ &&& 7
  if mode = 2 then
    let ea := s.REG_A reg
    some ((m68ki_read_32 s.mem (ea + 0) <<< 32) ||| m68ki_read_32 s.mem (ea + 4), s)
  else if mode = 3 then
    let ea := s.REG_A reg
    let s1 := { s with REG_A := Function.update s.REG_A reg ((ea + 8) % 2 ^ 32) }
    some ((m68ki_read_32 s1.mem (ea + 0) <<< 32) ||| m68ki_read_32 s1.mem (ea + 4), s1)
  else if mode = 5 then
    let p := EA_AY_DI s reg
    some ((m68ki_read_32 p.2.mem (p.1 + 0) <<< 32) ||| m68ki_read_32 p.2.mem (p.1 + 4), p.2)
  else if mode = 7 then
    if reg = 4 then
      let p1 := OPER_I_32 s
      let p2 := OPER_I_32 p1.2
      some ((p1.1 <<< 32) ||| p2.1, p2.2)
    else if reg = 2 then
      let p := EA_PCDI s
      some ((m68ki_read_32 p.2.mem (p.1 + 0) <<< 32) ||| m68ki_read_32 p.2.mem (p.1 + 4), p.2)
    else none
  else none

/-- WRITE_EA_8 from src/m68kfpu.c.  In data-register-direct mode the whole
32-bit register is assigned the (8-bit) datum. -/
def WRITE_EA_8 (s : FpuState) (ea_ : Nat) (data : Nat) : Option FpuState :=
  let mode := (ea_ >>> 3) &&& 7
  let reg := ea_ &&& 7
  let d := data % 2 ^ 8
  if mode = 0 then some { s with REG_D := Function.update s.REG_D reg d }
  else if mode = 2 then
    some { s with mem := m68ki_write_8 s.mem (s.REG_A reg) d }
  else if mode = 3 then
    let p := EA_AY_PI_8 s reg
    some { p.2 with mem := m68ki_write_8 p.2.mem p.1 d }
  else if mode = 4 then
    let p := EA_AY_PD_8 s reg
    some { p.2 with mem := m68ki_write_8 p.2.mem p.1 d }
  else if mode = 5 then
    let p := EA_AY_DI s reg
    some { p.2 with mem := m68ki_write_8 p.2.mem p.1 d }
  else if mode = 6 then
    let p := EA_AY_IX s reg
    some { p.2 with mem := m68ki_write_8 p.2.mem p.1 d }
  else if mode = 7 then
    if reg = 1 then
      let p1 := OPER_I_16 s
      let p2 := OPER_I_16 p1.2
      some { p2.2 with mem := m68ki_write_8 p2.2.mem ((p1.1 <<< 16) ||| p2.1) d }
    else if reg = 2 then
      let p := EA_PCDI s
      some { p.2 with mem := m68ki_write_8 p.2.mem p.1 d }
    else none
  else none

/-- WRITE_EA_16 from src/m68kfpu.c. -/
def WRITE_EA_16 (s : FpuState) (ea_ : Nat) (data : Nat) : Option FpuState :=
  let mode := (ea_ >>> 3) &&& 7
  let reg := ea_ &&& 7
  let d := data % 2 ^ 16
  if mode = 0 then some { s with REG_D := Function.update s.REG_D reg d }
  else if mode = 2 then
    some { s with mem := m68ki_write_16 s.mem (s.REG_A reg) d }
  else if mode = 3 then
    let p := EA_AY_PI_16 s reg
    some { p.2 with mem := m68ki_write_16 p.2.mem p.1 d }
  else if mode = 4 then
    let p := EA_AY_PD_16 s reg
    some { p.2 with mem := m68ki_write_16 p.2.mem p.1 d }
  else if mode = 5 then
    let p := EA_AY_DI s reg
    some { p.2 with mem := m68ki_write_16 p.2.mem p.1 d }
  else if mode = 6 then
    let p := EA_AY_IX s reg
    some { p.2 with mem := m68ki_write_16 p.2.mem p.1 d }
  else if mode = 7 then
    if reg = 1 then
      let p1 := OPER_I_16 s
      let p2 := OPER_I_16 p1.2
      some { p2.2 with mem := m68ki_write_16 p2.2.mem ((p1.1 <<< 16) ||| p2.1) d }
    else if reg = 2 then
      let p := EA_PCDI s
      some { p.2 with mem := m68ki_write_16 p.2.mem p.1 d }
    else none
  else none

/-- WRITE_EA_32 from src/m68kfpu.c.  Mode 1 (address-register direct)
replaces the full 32-bit address register. -/
def WRITE_EA_32 (s : FpuState) (ea_ : Nat) (data : Nat) : Option FpuState :=
  let mode := (ea_ >>> 3) &&& 7
  let reg := ea_ &&& 7
  let d := data % 2 ^ 32
  if mode = 0 then some { s with REG_D := Function.update s.REG_D reg d }
  else if mode = 1 then some { s with REG_A := Function.update s.REG_A reg d }
  else if mode = 2 then
    some { s with mem := m68ki_write_32 s.mem (s.REG_A reg) d }
  else if mode = 3 then
    let p := EA_AY_PI_32 s reg
    some { p.2 with mem := m68ki_write_32 p.2.mem p.1 d }
  else if mode = 4 then
    let p := EA_AY_PD_32 s reg
    some { p.2 with mem := m68ki_write_32 p.2.mem p.1 d }
  else if mode = 5 then
    let p := EA_AY_DI s reg
    some { p.2 with mem := m68ki_write_32 p.2.mem p.1 d }
  else if mode = 6 then
    let p := EA_AY_IX s reg
    some { p.2 with mem := m68ki_write_32 p.2.mem p.1 d }
  else if mode = 7 then
    if reg = 1 then
      let p1 := OPER_I_16 s
      let p2 := OPER_I_16 p1.2
      some { p2.2 with mem := m68ki_write_32 p2.2.mem ((p1.1 <<< 16) ||| p2.1) d }
    else if reg = 2 then
      let p := EA_PCDI s
      some { p.2 with mem := m68ki_write_32 p.2.mem p.1 d }
    else none
  else none

/-- WRITE_EA_64 from src/m68kfpu.c.  In predecrement mode the register is
decremented by 8 first and the new value is the store address. -/
def WRITE_EA_64 (s : FpuState) (ea_ : Nat) (data : Nat) : Option FpuState :=
  let mode := (ea_ >>> 3) &&& 7
  let reg := ea_ &&& 7
  let d := data % 2 ^ 64
  if mode = 2 then
    let ea := s.REG_A reg
    some { s with mem := m68ki_write_32 (m68ki_write_32 s.mem ea (d >>> 32)) (ea + 4) d }
  else if mode = 4 then
    let ea := (s.REG_A reg + (2 ^ 32 - 8)) % 2 ^ 32
    let s1 := { s with REG_A := Function.update s.REG_A reg ea }
    some { s1 with mem := m68ki_write_32 (m68ki_write_32 s1.mem (ea + 0) (d >>> 32)) (ea + 4) d }
  else if mode = 5 then
    let p := EA_AY_DI s reg
    some { p.2 with mem := m68ki_write_32 (m68ki_write_32 p.2.mem (p.1 + 0) (d >>> 32)) (p.1 + 4) d }
  else none

/-- READ_EA_FPE from src/m68kfpu.c: the 96-bit extended-operand load,
defined only for postincrement mode; it moves only the top 64 bits and
advances the register by 12. -/
def READ_EA_FPE (s : FpuState) (ea_ : Nat) : Option (Nat × FpuState) :=
  let mode := (ea_ >>> 3) &&& 7
  let reg := ea_ &&& 7
  if mode = 3 then
    let ea := s.REG_A reg
    let s1 := { s with REG_A := Function.update s.REG_A reg ((ea + 12) % 2 ^ 32) }
    some ((m68ki_read_32 s1.mem (ea + 0) <<< 32) ||| m68ki_read_32 s1.mem (ea + 4), s1)
  else none

/-- WRITE_EA_FPE from src/m68kfpu.c: the 96-bit extended-operand store,
defined only for predecrement mode; the register is decremented by 12
first, the decremented value is the store address, and the low 32 bits
of the 96-bit slot are zero-filled. -/
def WRITE_EA_FPE (s : FpuState) (ea_ : Nat) (fpr : Nat) : Option FpuState :=
  let mode := (ea_ >>> 3) &&& 7
  let reg := ea_ &&& 7
  if mode = 4 then
    let ea := (s.REG_A reg + (2 ^ 32 - 12)) % 2 ^ 32
    let s1 := { s with REG_A := Function.update s.REG_A reg ea }
    let m1 := m68ki_write_32 s1.mem (ea + 0) (fpr >>> 32)
    let m2 := m68ki_write_32 m1 (ea + 4) fpr
    let m3 := m68ki_write_32 m2 (ea + 8) 0
    some { s1 with mem := m3 }
  else none

/-- IEEE double-precision operations on 64-bit patterns, kept abstract:
the C code delegates them to the host's hardware arithmetic (sqrt, fabs,
unary minus, /=, +=, *=, -= on double, and the int/float conversions of
the source-format switch).  Claims about the dispatcher's flag and cycle
bookkeeping hold for every such family of operations. -/
structure FloatOps where
  fadd : Nat → Nat → Nat
  fsub : Nat → Nat → Nat
  fmul : Nat → Nat → Nat
  fdiv : Nat → Nat → Nat
  fsqrt : Nat → Nat
  fneg : Nat → Nat
  fabs : Nat → Nat
  f32tof64 : Nat → Nat
  intToF64 : Int → Nat

/-- Source-operand load of fpgen_rm_reg: when the register/memory bit is
set, the operand comes from the Resolver converted through the 3-bit
source-format code; extended-precision (2) and packed-decimal (3) are
fatal; when clear, the operand is the source floating-point register. -/
def fpgenSource (ops : FloatOps) (s : FpuState) (ea rm src : Nat) :
    Option (Nat × FpuState) :=
  if rm = 1 then
    if src = 0 then
      (READ_EA_32 s ea).map fun p => (ops.intToF64 (signExt32 p.1), p.2)
    else if src = 1 then
      (READ_EA_32 s ea).map fun p => (ops.f32tof64 p.1, p.2)
    else if src = 2 then none
    else if src = 3 then none
    else if src = 4 then
      (READ_EA_16 s ea).map fun p => (ops.intToF64 (signExt16 p.1), p.2)
    else if src = 5 then READ_EA_64 s ea
    else if src = 6 then
      (READ_EA_8 s ea).map fun p => (ops.intToF64 (signExt8 p.1), p.2)
    else none
  else some (s.REG_FP src, s)

/-- fpgen_rm_reg from src/m68kfpu.c: the ALU family.  Loads the source
operand, dispatches on the 7-bit opmode, writes the destination register
where the operation has a numeric result, updates the condition codes
for every operation except FMOVE and FDIV, and charges the fixed cycle
cost; unknown opmodes are fatal. -/
def fpgen_rm_reg (ops : FloatOps) (s : FpuState) (w2 : Nat) : Option FpuState :=
  let ea := s.REG_IR &&& 0x3f
  let rm := (w2 >>> 14) &&& 1
  let src := (w2 >>> 10) &&& 7
  let dst := (w2 >>> 7) &&& 7
  let opmode := w2 &&& 0x7f
  (fpgenSource ops s ea rm src).bind fun p =>
    let source := p.1
    let s1 := p.2
    if opmode = 0x00 then
      some (USE_CYCLES { s1 with REG_FP := Function.update s1.REG_FP dst source } 4)
    else if opmode = 0x04 then
      let r := ops.fsqrt source
      let s2 := { s1 with REG_FP := Function.update s1.REG_FP dst r }
      some (USE_CYCLES { s2 with REG_FPSR := SET_CONDITION_CODES s2.REG_FPSR r } 109)
    else if opmode = 0x18 then
      let r := ops.fabs source
      let s2 := { s1 with REG_FP := Function.update s1.REG_FP dst r }
      some (USE_CYCLES { s2 with REG_FPSR := SET_CONDITION_CODES s2.REG_FPSR r } 3)
    else if opmode = 0x1a then
      let r := ops.fneg source
      let s2 := { s1 with REG_FP := Function.update s1.REG_FP dst r }
      some (USE_CYCLES { s2 with REG_FPSR := SET_CONDITION_CODES s2.REG_FPSR r } 3)
    else if opmode = 0x20 then
      let r := ops.fdiv (s1.REG_FP dst) source
      some (USE_CYCLES { s1 with REG_FP := Function.update s1.REG_FP dst r } 43)
    else if opmode = 0x22 then
      let r := ops.fadd (s1.REG_FP dst) source
      let s2 := { s1 with REG_FP := Function.update s1.REG_FP dst r }
      some (USE_CYCLES { s2 with REG_FPSR := SET_CONDITION_CODES s2.REG_FPSR r } 9)
    else if opmode = 0x23 then
      let r := ops.fmul (s1.REG_FP dst) source
      let s2 := { s1 with REG_FP := Function.update s1.REG_FP dst r }
      some (USE_CYCLES { s2 with REG_FPSR := SET_CONDITION_CODES s2.REG_FPSR r } 11)
    else if opmode = 0x28 then
      let r := ops.fsub (s1.REG_FP dst) source
      let s2 := { s1 with REG_FP := Function.update s1.REG_FP dst r }
      some (USE_CYCLES { s2 with REG_FPSR := SET_CONDITION_CODES s2.REG_FPSR r } 9)
    else if opmode = 0x38 then
      let r := ops.fsub (s1.REG_FP dst) source
      some (USE_CYCLES { s1 with REG_FPSR := SET_CONDITION_CODES s1.REG_FPSR r } 7)
    else if opmode = 0x3a then
      some (USE_CYCLES { s1 with REG_FPSR := SET_CONDITION_CODES s1.REG_FPSR source } 7)
    else none

/-- Modelled from the spec: resetTraceSuppression (section 6); the flag
records that the reset was performed. -/
def m68ki_trace_t0 (s : FpuState) : FpuState := { s with traceT0Reset := true }

/-- Modelled from the spec: branchRelative (section 6) — a relative branch
of the program counter by a signed displacement, 16-bit word form. -/
def m68ki_branch_16 (s : FpuState) (offset : Int) : FpuState :=
  { s with REG_PC := wrapInt32 ((s.REG_PC : Int) + offset) }

/-- Modelled from the spec: branchRelative (section 6), 32-bit form. -/
def m68ki_branch_32 (s : FpuState) (offset : Int) : FpuState :=
  { s with REG_PC := wrapInt32 ((s.REG_PC : Int) + offset) }

/-- fbcc16 from src/m68kfpu.c: 16-bit-displacement conditional branch.
The predicate code is the low 6 bits of the first opcode word REG_IR. -/
def fbcc16 (s : FpuState) : Option FpuState :=
  let condition := s.REG_IR &&& 0x3f
  let p := OPER_I_16 s
  let offset : Int := signExt16 p.1
  (TEST_CONDITION p.2.REG_FPSR condition).map fun b =>
    let s2 := if b then m68ki_branch_16 (m68ki_trace_t0 p.2) (offset - 2) else p.2
    USE_CYCLES s2 7

/-- fbcc32 from src/m68kfpu.c: 32-bit-displacement conditional branch. -/
def fbcc32 (s : FpuState) : Option FpuState :=
  let condition := s.REG_IR &&& 0x3f
  let p := OPER_I_32 s
  let offset : Int := signExt32 p.1
  (TEST_CONDITION p.2.REG_FPSR condition).map fun b =>
    let s2 := if b then m68ki_branch_32 (m68ki_trace_t0 p.2) (offset - 4) else p.2
    USE_CYCLES s2 7

/-- One iteration of the fmovem register-to-memory loop body. -/
def fmovemStoreStep (ea reglist : Nat) (st : FpuState) (i : Nat) :
    Option FpuState :=
  if reglist &&& (1 <<< i) ≠ 0 then
    (WRITE_EA_FPE st ea (st.REG_FP i)).map fun st2 => USE_CYCLES st2 2
  else pure st

/-- One iteration of the fmovem memory-to-register loop body: ascending
mask bit i loads floating-point register 7 - i. -/
def fmovemLoadStep (ea reglist : Nat) (st : FpuState) (i : Nat) :
    Option FpuState :=
  if reglist &&& (1 <<< i) ≠ 0 then
    (READ_EA_FPE st ea).map fun p =>
      USE_CYCLES { p.2 with REG_FP := Function.update p.2.REG_FP (7 - i) p.1 } 2
  else pure st

/-- fmovem from src/m68kfpu.c: multi-register transfer.  Direction bit 13
selects register-to-memory (mode field 0 only) or memory-to-register
(mode field 2 only); both walk the 8-bit mask from bit 0 to bit 7. -/
def fmovem (s : FpuState) (w2 : Nat) : Option FpuState :=
  let ea := s.REG_IR &&& 0x3f
  let dir := (w2 >>> 13) &&& 1
  let mode := (w2 >>> 11) &&& 3
  let reglist := w2 &&& 0xff
  if dir = 1 then
    if mode = 0 then (List.range 8).foldlM (fmovemStoreStep ea reglist) s
    else none
  else
    if mode = 2 then (List.range 8).foldlM (fmovemLoadStep ea reglist) s
    else none

/-- Follows the spec's words (section 4.3, multi-register family):
register-to-memory only in predecrement mode, storing registers 0..7 in
ascending index order wherever their mask bit is set, 2 cycles each;
memory-to-register only in postincrement mode, loading into registers in
descending index order (7 down to 0) for ascending mask bits; any other
mode field in either direction is a fatal decode error. -/
def fmovemSpec (s : FpuState) (w2 : Nat) : Option FpuState :=
  let ea := s.REG_IR &&& 0x3f
  let dir := (w2 >>> 13) &&& 1
  let mode := (w2 >>> 11) &&& 3
  let reglist := w2 &&& 0xff
  if dir = 1 then
    if mode = 0 then
      ((List.range 8).filter (fun i => reglist.testBit i)).foldlM
        (fun st i => (WRITE_EA_FPE st ea (st.REG_FP i)).map fun st2 =>
          USE_CYCLES st2 2) s
    else none
  else
    if mode = 2 then
      ((List.range 8).filter (fun i => reglist.testBit i)).foldlM
        (fun st i => (READ_EA_FPE st ea).map fun p =>
          USE_CYCLES { p.2 with REG_FP := Function.update p.2.REG_FP (7 - i) p.1 } 2) s
    else none

/-- Base concrete state used by witnesses and counterexamples. -/
def state0 : FpuState :=
  { REG_D := fun _ => 0, REG_A := fun _ => 0, REG_FP := fun _ => 0,
    REG_FPSR := 0, REG_FPCR := 0, REG_FPIAR := 0, REG_IR := 0, REG_PC := 0,
    mem := fun _ => 0, cycles := 0, traceT0Reset := false }

/-- Concrete FloatOps instance for witnesses: any values will do, the
claims about the dispatcher hold for every operation family. -/
def ops0 : FloatOps :=
  { fadd := fun a _ => a, fsub := fun a _ => a, fmul := fun a _ => a,
    fdiv := fun a _ => a, fsqrt := fun a => a, fneg := fun a => a,
    fabs := fun a => a, f32tof64 := fun a => a, intToF64 := fun _ => 0 }

/-- Concrete state for the FMOVEM store scenario: predecrement on A0 at
0x2000, FP0 and FP1 holding distinguishable bit patterns. -/
def stateMovem : FpuState :=
  { state0 with
    REG_IR := 0x20,
    REG_A := Function.update state0.REG_A 0 0x2000,
    REG_FP := fun i => if i = 0 then 0x4000000000000000
      else if i = 1 then 0x3ff0000000000000 else 0 }

/-- Concrete state for the register-direct store scenario: D0 holds a
value with all upper bits set. -/
def stateD0 : FpuState :=
  { state0 with REG_D := Function.update state0.REG_D 0 0xffffff00 }

/-- Concrete state for the conditional-branch scenario: opcode word with
predicate 0x01 (Equal) in its low 6 bits, FPSR with the Z flag set. -/
def stateFbcc : FpuState :=
  { state0 with REG_IR := 0xf281, REG_FPSR := 0x04000000, REG_PC := 0x100 }

/-! Bit-level helper lemmas. -/

theorem and_two_pow_ne_zero (x n : Nat) : x &&& 2 ^ n ≠ 0 ↔ x.testBit n := by
  constructor
  · intro h
    by_contra hb
    apply h
    apply Nat.eq_of_testBit_eq
    intro i
    rw [Nat.testBit_and, Nat.zero_testBit, Nat.testBit_two_pow]
    by_cases hi : n = i
    · subst hi
      simp [hb]
    · simp [hi]
  · intro h hz
    have hbit : (x &&& 2 ^ n).testBit n = true := by
      rw [Nat.testBit_and, h, Nat.testBit_two_pow]
      simp
    rw [hz, Nat.zero_testBit] at hbit
    exact Bool.false_ne_true hbit

theorem and_mul_two_pow_mask (x a b : Nat) :
    x &&& (2 ^ a - 1) * 2 ^ b = x / 2 ^ b % 2 ^ a * 2 ^ b := by
  apply Nat.eq_of_testBit_eq
  intro i
  rw [Nat.testBit_and]
  rcases Nat.lt_or_ge i b with hib | hib
  · have h1 : ((2 ^ a - 1) * 2 ^ b).testBit i = false := by
      rw [← Nat.shiftLeft_eq, Nat.testBit_shiftLeft]
      simp [Nat.not_le.2 hib]
    have h2 : (x / 2 ^ b % 2 ^ a * 2 ^ b).testBit i = false := by
      rw [← Nat.shiftLeft_eq, Nat.testBit_shiftLeft]
      simp [Nat.not_le.2 hib]
    simp [h1, h2]
  · obtain ⟨j, rfl⟩ : ∃ j, i = b + j := ⟨i - b, by omega⟩
    have h1 : ((2 ^ a - 1) * 2 ^ b).testBit (b + j) = decide (j < a) := by
      rw [← Nat.shiftLeft_eq, Nat.testBit_shiftLeft]
      simp [Nat.testBit_two_pow_sub_one, Nat.add_sub_cancel_left]
    have h2 : (x / 2 ^ b % 2 ^ a * 2 ^ b).testBit (b + j) =
        (decide (j < a) && x.testBit (b + j)) := by
      rw [← Nat.shiftLeft_eq, Nat.testBit_shiftLeft]
      simp [Nat.testBit_mod_two_pow, ← Nat.shiftRight_eq_div_pow,
        Nat.testBit_shiftRight, Nat.add_sub_cancel_left]
    rw [h1, h2]
    cases hj : decide (j < a) <;> simp [hj]

theorem and_upper63 (x : Nat) : x &&& 0x7fffffffffffffff = x % 2 ^ 63 := by
  have h : (0x7fffffffffffffff : Nat) = 2 ^ 63 - 1 := by norm_num
  rw [h, Nat.and_pow_two_sub_one_eq_mod]

theorem and_mantissa (x : Nat) : x &&& DOUBLE_MANTISSA = x % 2 ^ 52 := by
  have h : DOUBLE_MANTISSA = 2 ^ 52 - 1 := by norm_num [DOUBLE_MANTISSA]
  rw [h, Nat.and_pow_two_sub_one_eq_mod]

theorem and_exponent (x : Nat) :
    x &&& DOUBLE_EXPONENT = x / 2 ^ 52 % 2 ^ 11 * 2 ^ 52 := by
  have h : DOUBLE_EXPONENT = (2 ^ 11 - 1) * 2 ^ 52 := by norm_num [DOUBLE_EXPONENT]
  rw [h, and_mul_two_pow_mask]

theorem scc_testBit_27 (fpsr x : Nat) :
    (SET_CONDITION_CODES fpsr x).testBit 27 =
      decide (x &&& 0x8000000000000000 ≠ 0) := by
  unfold SET_CONDITION_CODES setFlagN setFlagZ setFlagI setFlagNAN
    FPCC_N FPCC_Z FPCC_I FPCC_NAN
  split_ifs <;>
    simp_all [Nat.testBit_or, Nat.testBit_and,
      (by decide : Nat.testBit 0xf0ffffff 27 = false),
      (by decide : Nat.testBit 0x08000000 27 = true),
      (by decide : Nat.testBit 0x04000000 27 = false),
      (by decide : Nat.testBit 0x02000000 27 = false),
      (by decide : Nat.testBit 0x01000000 27 = false)]

theorem scc_testBit_26 (fpsr x : Nat) :
    (SET_CONDITION_CODES fpsr x).testBit 26 =
      decide (x &&& 0x7fffffffffffffff = 0) := by
  unfold SET_CONDITION_CODES setFlagN setFlagZ setFlagI setFlagNAN
    FPCC_N FPCC_Z FPCC_I FPCC_NAN
  split_ifs <;>
    simp_all [Nat.testBit_or, Nat.testBit_and,
      (by decide : Nat.testBit 0xf0ffffff 26 = false),
      (by decide : Nat.testBit 0x08000000 26 = false),
      (by decide : Nat.testBit 0x04000000 26 = true),
      (by decide : Nat.testBit 0x02000000 26 = false),
      (by decide : Nat.testBit 0x01000000 26 = false)]

theorem scc_testBit_25 (fpsr x : Nat) :
    (SET_CONDITION_CODES fpsr x).testBit 25 =
      decide (x &&& 0x7fffffffffffffff = DOUBLE_INFINITY) := by
  unfold SET_CONDITION_CODES setFlagN setFlagZ setFlagI setFlagNAN
    FPCC_N FPCC_Z FPCC_I FPCC_NAN
  split_ifs <;>
    simp_all [Nat.testBit_or, Nat.testBit_and,
      (by decide : Nat.testBit 0xf0ffffff 25 = false),
      (by decide : Nat.testBit 0x08000000 25 = false),
      (by decide : Nat.testBit 0x04000000 25 = false),
      (by decide : Nat.testBit 0x02000000 25 = true),
      (by decide : Nat.testBit 0x01000000 25 = false)]

theorem scc_testBit_24 (fpsr x : Nat) :
    (SET_CONDITION_CODES fpsr x).testBit 24 =
      decide (x &&& DOUBLE_EXPONENT = DOUBLE_EXPONENT ∧
        x &&& DOUBLE_MANTISSA ≠ 0) := by
  unfold SET_CONDITION_CODES setFlagN setFlagZ setFlagI setFlagNAN
    FPCC_N FPCC_Z FPCC_I FPCC_NAN
  split_ifs <;>
    simp_all [Nat.testBit_or, Nat.testBit_and,
      (by decide : Nat.testBit 0xf0ffffff 24 = false),
      (by decide : Nat.testBit 0x08000000 24 = false),
      (by decide : Nat.testBit 0x04000000 24 = false),
      (by decide : Nat.testBit 0x02000000 24 = false),
      (by decide : Nat.testBit 0x01000000 24 = true)]

theorem infinity_cond_iff (x : Nat) :
    x &&& 0x7fffffffffffffff = DOUBLE_INFINITY ↔
      x &&& DOUBLE_EXPONENT = DOUBLE_EXPONENT ∧ x &&& DOUBLE_MANTISSA = 0 := by
  rw [and_upper63, and_exponent, and_mantissa]
  have hsplit : x % 2 ^ 63 = x % 2 ^ 52 + 2 ^ 52 * (x / 2 ^ 52 % 2 ^ 11) := by
    have h : (2 : Nat) ^ 63 = 2 ^ 52 * 2 ^ 11 := by norm_num
    rw [h, Nat.mod_mul]
  rw [hsplit]
  have hm : x % 2 ^ 52 < 2 ^ 52 := Nat.mod_lt _ (by norm_num)
  have he : x / 2 ^ 52 % 2 ^ 11 < 2 ^ 11 := Nat.mod_lt _ (by norm_num)
  have hinf : DOUBLE_INFINITY = 0x7ff0000000000000 := rfl
  have hexp : DOUBLE_EXPONENT = 0x7ff0000000000000 := rfl
  rw [hinf, hexp]
  constructor
  · intro h
    have he : x / 2 ^ 52 % 2 ^ 11 = 2047 := by omega
    have hm0 : x % 2 ^ 52 = 0 := by omega
    refine ⟨?_, hm0⟩
    rw [he]
    norm_num
  · rintro ⟨h1, h2⟩
    have h2047 : (9218868437227405312 : Nat) = 2047 * 2 ^ 52 := by norm_num
    rw [h2047] at h1
    have he : x / 2 ^ 52 % 2 ^ 11 = 2047 :=
      Nat.eq_of_mul_eq_mul_right (by norm_num) h1
    omega

/-- C1: SET_CONDITION_CODES replaces the four condition flags as a function
of the 64-bit result pattern alone: N iff the sign bit (bit 63) is set,
Z iff all bits except the sign bit are zero, I iff the exponent field is
all-ones with zero mantissa, and NaN iff the exponent field is all-ones
with nonzero mantissa — for every prior FPSR value, hence in particular
the NaN flag is set for every NaN payload regardless of sign or payload. -/
theorem SET_CONDITION_CODES_derives_flags (fpsr x : Nat) :
    (SET_CONDITION_CODES fpsr x &&& FPCC_N ≠ 0 ↔ x.testBit 63) ∧
    (SET_CONDITION_CODES fpsr x &&& FPCC_Z ≠ 0 ↔ x % 2 ^ 63 = 0) ∧
    (SET_CONDITION_CODES fpsr x &&& FPCC_I ≠ 0 ↔
      x &&& DOUBLE_EXPONENT = DOUBLE_EXPONENT ∧ x &&& DOUBLE_MANTISSA = 0) ∧
    (SET_CONDITION_CODES fpsr x &&& FPCC_NAN ≠ 0 ↔
      x &&& DOUBLE_EXPONENT = DOUBLE_EXPONENT ∧ x &&& DOUBLE_MANTISSA ≠ 0) := by
  have hN : FPCC_N = 2 ^ 27 := by norm_num [FPCC_N]
  have hZ : FPCC_Z = 2 ^ 26 := by norm_num [FPCC_Z]
  have hI : FPCC_I = 2 ^ 25 := by norm_num [FPCC_I]
  have hNAN : FPCC_NAN = 2 ^ 24 := by norm_num [FPCC_NAN]
  have hsign : (0x8000000000000000 : Nat) = 2 ^ 63 := by norm_num
  refine ⟨?_, ?_, ?_, ?_⟩
  · rw [hN, and_two_pow_ne_zero, scc_testBit_27, decide_eq_true_eq, hsign,
      and_two_pow_ne_zero]
  · rw [hZ, and_two_pow_ne_zero, scc_testBit_26, decide_eq_true_eq, and_upper63]
  · rw [hI, and_two_pow_ne_zero, scc_testBit_25, decide_eq_true_eq,
      infinity_cond_iff]
  · rw [hNAN, and_two_pow_ne_zero, scc_testBit_24, decide_eq_true_eq]

theorem scc_lt_two_pow_32 (fpsr x : Nat) :
    SET_CONDITION_CODES fpsr x < 2 ^ 32 := by
  unfold SET_CONDITION_CODES setFlagN setFlagZ setFlagI setFlagNAN
    FPCC_N FPCC_Z FPCC_I FPCC_NAN
  have hbase : fpsr &&& 0xf0ffffff < 2 ^ 32 :=
    Nat.lt_of_le_of_lt Nat.and_le_right (by norm_num)
  split_ifs <;>
    first
      | exact hbase
      | (repeat
          first
            | exact hbase
            | (apply Nat.or_lt_two_pow)
            | norm_num)

/-- C10: every condition-code update leaves all bits of the FPSR outside
the four flag positions 24..27 unchanged, for every prior FPSR value
(any 32-bit pattern) and every result pattern. -/
theorem set_condition_codes_frame (fpsr x k : Nat) (hf : fpsr < 2 ^ 32)
    (h24 : k ≠ 24) (h25 : k ≠ 25) (h26 : k ≠ 26) (h27 : k ≠ 27) :
    (SET_CONDITION_CODES fpsr x).testBit k = fpsr.testBit k := by
  rcases Nat.lt_or_ge k 32 with hk | hk
  · have hm : Nat.testBit 0xf0ffffff k = true := by
      interval_cases k <;>
        first
          | decide
          | (exact absurd rfl h24)
          | (exact absurd rfl h25)
          | (exact absurd rfl h26)
          | (exact absurd rfl h27)
    have hb27 : Nat.testBit 0x08000000 k = false := by
      rw [show (0x08000000 : Nat) = 2 ^ 27 by norm_num]
      exact Nat.testBit_two_pow_of_ne (Ne.symm h27)
    have hb26 : Nat.testBit 0x04000000 k = false := by
      rw [show (0x04000000 : Nat) = 2 ^ 26 by norm_num]
      exact Nat.testBit_two_pow_of_ne (Ne.symm h26)
    have hb25 : Nat.testBit 0x02000000 k = false := by
      rw [show (0x02000000 : Nat) = 2 ^ 25 by norm_num]
      exact Nat.testBit_two_pow_of_ne (Ne.symm h25)
    have hb24 : Nat.testBit 0x01000000 k = false := by
      rw [show (0x01000000 : Nat) = 2 ^ 24 by norm_num]
      exact Nat.testBit_two_pow_of_ne (Ne.symm h24)
    unfold SET_CONDITION_CODES setFlagN setFlagZ setFlagI setFlagNAN
      FPCC_N FPCC_Z FPCC_I FPCC_NAN
    split_ifs <;>
      simp [Nat.testBit_or, Nat.testBit_and, hm, hb27, hb26, hb25, hb24]
  · have hlt : SET_CONDITION_CODES fpsr x < 2 ^ k :=
      Nat.lt_of_lt_of_le (scc_lt_two_pow_32 fpsr x)
        (Nat.pow_le_pow_right (by norm_num) hk)
    have hlt2 : fpsr < 2 ^ k :=
      Nat.lt_of_lt_of_le hf (Nat.pow_le_pow_right (by norm_num) hk)
    rw [Nat.testBit_lt_two_pow hlt, Nat.testBit_lt_two_pow hlt2]

/-- Witness for C10 at a concrete input. -/
theorem set_condition_codes_frame_witness :
    (0x12345678 : Nat) < 2 ^ 32 ∧ (3 : Nat) ≠ 24 ∧ (3 : Nat) ≠ 25 ∧
      (3 : Nat) ≠ 26 ∧ (3 : Nat) ≠ 27 ∧
      (SET_CONDITION_CODES 0x12345678 0).testBit 3 =
        (0x12345678 : Nat).testBit 3 :=
  ⟨by decide, by decide, by decide, by decide, by decide,
    set_condition_codes_frame 0x12345678 0 3 (by decide) (by decide)
      (by decide) (by decide) (by decide)⟩

/-- C2: TEST_CONDITION agrees with the spec's predicate table for every
code and every FPSR (hence all 8 combinations of the N, Z, NaN bits);
a set NaN flag forces a true outcome for the four unordered codes
0x1A..0x1D; and every code outside the table is a fatal decode error. -/
theorem TEST_CONDITION_matches_table (fpsr : Nat) :
    (∀ code, TEST_CONDITION fpsr code =
      evaluatePredicate (decide (fpsr &&& FPCC_N ≠ 0))
        (decide (fpsr &&& FPCC_Z ≠ 0))
        (decide (fpsr &&& FPCC_NAN ≠ 0)) code) ∧
    (fpsr &&& FPCC_NAN ≠ 0 →
      TEST_CONDITION fpsr 0x1a = some true ∧
      TEST_CONDITION fpsr 0x1b = some true ∧
      TEST_CONDITION fpsr 0x1c = some true ∧
      TEST_CONDITION fpsr 0x1d = some true) ∧
    (∀ code, code < 64 → code ∉ handledPredicates →
      TEST_CONDITION fpsr code = none) := by
  refine ⟨fun code => rfl, ?_, ?_⟩
  · intro hnan
    refine ⟨?_, ?_, ?_, ?_⟩ <;> simp [TEST_CONDITION, hnan]
  · intro code hlt hmem
    simp only [handledPredicates, List.mem_cons, List.not_mem_nil, or_false,
      not_or] at hmem
    obtain ⟨h0, h1, h2, h3, h4, h5, h6, h7, h8, h9, h10, h11⟩ := hmem
    simp [TEST_CONDITION, h0, h1, h2, h3, h4, h5, h6, h7, h8, h9, h10, h11]

/-- Witness for C2 at concrete inputs: the NaN-forcing part at an FPSR
with only the NaN bit set, and the fatal-decode part at code 0x02. -/
theorem TEST_CONDITION_matches_table_witness :
    ((0x01000000 : Nat) &&& FPCC_NAN ≠ 0 ∧
      TEST_CONDITION 0x01000000 0x1a = some true ∧
      TEST_CONDITION 0x01000000 0x1b = some true ∧
      TEST_CONDITION 0x01000000 0x1c = some true ∧
      TEST_CONDITION 0x01000000 0x1d = some true) ∧
    ((2 : Nat) < 64 ∧ (2 : Nat) ∉ handledPredicates ∧
      TEST_CONDITION 0x01000000 2 = none) :=
  ⟨⟨by decide,
    ((TEST_CONDITION_matches_table 0x01000000).2.1 (by decide)).1,
    ((TEST_CONDITION_matches_table 0x01000000).2.1 (by decide)).2.1,
    ((TEST_CONDITION_matches_table 0x01000000).2.1 (by decide)).2.2.1,
    ((TEST_CONDITION_matches_table 0x01000000).2.1 (by decide)).2.2.2⟩,
   ⟨by decide, by decide,
    (TEST_CONDITION_matches_table 0x01000000).2.2 2 (by decide) (by decide)⟩⟩

/-! Read-after-write lemmas for the byte memory. -/

theorem read8_write8 (m : Nat → Nat) (a b v : Nat) :
    m68ki_read_8 (m68ki_write_8 m b v) a =
      if a % 2 ^ 32 = b % 2 ^ 32 then v % 2 ^ 8 else m68ki_read_8 m a := by
  simp only [m68ki_read_8, m68ki_write_8]
  split_ifs with h
  · omega
  · rfl

theorem read8_write32_ne (m : Nat → Nat) (a b v : Nat)
    (h : ∀ j, j < 4 → a % 2 ^ 32 ≠ (b + j) % 2 ^ 32) :
    m68ki_read_8 (m68ki_write_32 m b v) a = m68ki_read_8 m a := by
  have h0 := h 0 (by omega)
  have h1 := h 1 (by omega)
  have h2 := h 2 (by omega)
  have h3 := h 3 (by omega)
  simp only [m68ki_write_32, m68ki_write_16, read8_write8]
  rw [if_neg (by omega), if_neg (by omega), if_neg (by omega), if_neg (by omega)]

theorem read32_write32_same (m : Nat → Nat) (a v : Nat) :
    m68ki_read_32 (m68ki_write_32 m a v) a = v % 2 ^ 32 := by
  have r0 : m68ki_read_8 (m68ki_write_32 m a v) a = v / 2 ^ 16 / 2 ^ 8 % 2 ^ 8 := by
    simp only [m68ki_write_32, m68ki_write_16, read8_write8]
    rw [if_neg (by omega), if_neg (by omega), if_neg (by omega)]
    simp
  have r1 : m68ki_read_8 (m68ki_write_32 m a v) (a + 1) = v / 2 ^ 16 % 2 ^ 8 := by
    simp only [m68ki_write_32, m68ki_write_16, read8_write8]
    rw [if_neg (by omega), if_neg (by omega)]
    simp
  have r2 : m68ki_read_8 (m68ki_write_32 m a v) (a + 2) = v / 2 ^ 8 % 2 ^ 8 := by
    simp only [m68ki_write_32, m68ki_write_16, read8_write8]
    rw [if_neg (by omega)]
    simp
  have r3 : m68ki_read_8 (m68ki_write_32 m a v) (a + 2 + 1) = v % 2 ^ 8 := by
    simp only [m68ki_write_32, m68ki_write_16, read8_write8]
    simp
  simp only [m68ki_read_32, m68ki_read_16]
  rw [r0, r1, r2, r3]
  omega

theorem read32_write32_ne (m : Nat → Nat) (a b v : Nat)
    (h : ∀ i, i < 4 → ∀ j, j < 4 → (a + i) % 2 ^ 32 ≠ (b + j) % 2 ^ 32) :
    m68ki_read_32 (m68ki_write_32 m b v) a = m68ki_read_32 m a := by
  have g0 : m68ki_read_8 (m68ki_write_32 m b v) a = m68ki_read_8 m a := by
    apply read8_write32_ne
    intro j hj
    have := h 0 (by omega) j hj
    omega
  have g1 : m68ki_read_8 (m68ki_write_32 m b v) (a + 1) = m68ki_read_8 m (a + 1) := by
    apply read8_write32_ne
    intro j hj
    exact h 1 (by omega) j hj
  have g2 : m68ki_read_8 (m68ki_write_32 m b v) (a + 2) = m68ki_read_8 m (a + 2) := by
    apply read8_write32_ne
    intro j hj
    exact h 2 (by omega) j hj
  have g3 : m68ki_read_8 (m68ki_write_32 m b v) (a + 2 + 1) = m68ki_read_8 m (a + 2 + 1) := by
    apply read8_write32_ne
    intro j hj
    have := h 3 (by omega) j hj
    omega
  simp only [m68ki_read_32, m68ki_read_16]
  rw [g0, g1, g2, g3]

/-- C5: in postincrement mode, READ_EA_64 reads from the prior register
value and only afterwards leaves the register incremented by the access
width of 8 bytes; in predecrement mode, WRITE_EA_FPE first decrements the
register by its access width of 12 bytes, the decremented value is the
address written to, and the register change is observable afterwards. -/
theorem postincrement_predecrement_timing (s : FpuState) (r p : Nat) (hr : r < 8) :
    (READ_EA_64 s (0x18 ||| r) =
      some ((m68ki_read_32 s.mem (s.REG_A r) <<< 32) |||
              m68ki_read_32 s.mem (s.REG_A r + 4),
            { s with REG_A := Function.update s.REG_A r ((s.REG_A r + 8) % 2 ^ 32) })) ∧
    ((WRITE_EA_FPE s (0x20 ||| r) p).map (fun s2 => s2.REG_A r) =
      some ((s.REG_A r + (2 ^ 32 - 12)) % 2 ^ 32)) ∧
    ((WRITE_EA_FPE s (0x20 ||| r) p).map
        (fun s2 => m68ki_read_32 s2.mem (s2.REG_A r)) =
      some ((p >>> 32) % 2 ^ 32)) ∧
    ((WRITE_EA_FPE s (0x20 ||| r) p).map
        (fun s2 => m68ki_read_32 s2.mem (s2.REG_A r + 4)) =
      some (p % 2 ^ 32)) := by
  have hmode3 : ((0x18 ||| r) >>> 3) &&& 7 = 3 := by interval_cases r <;> decide
  have hreg3 : (0x18 ||| r) &&& 7 = r := by interval_cases r <;> decide
  have hmode4 : ((0x20 ||| r) >>> 3) &&& 7 = 4 := by interval_cases r <;> decide
  have hreg4 : (0x20 ||| r) &&& 7 = r := by interval_cases r <;> decide
  have e1 : m68ki_read_32
      (m68ki_write_32
        (m68ki_write_32
          (m68ki_write_32 s.mem ((s.REG_A r + 4294967284) % 4294967296) (p >>> 32))
          ((s.REG_A r + 4294967284) % 4294967296 + 4) p)
        ((s.REG_A r + 4294967284) % 4294967296 + 8) 0)
      ((s.REG_A r + 4294967284) % 4294967296) = p >>> 32 % 4294967296 := by
    rw [read32_write32_ne _ _ _ _ (by intro i hi j hj; omega),
      read32_write32_ne _ _ _ _ (by intro i hi j hj; omega),
      read32_write32_same]
    norm_num
  have e2 : m68ki_read_32
      (m68ki_write_32
        (m68ki_write_32
          (m68ki_write_32 s.mem ((s.REG_A r + 4294967284) % 4294967296) (p >>> 32))
          ((s.REG_A r + 4294967284) % 4294967296 + 4) p)
        ((s.REG_A r + 4294967284) % 4294967296 + 8) 0)
      ((s.REG_A r + 4294967284) % 4294967296 + 4) = p % 4294967296 := by
    rw [read32_write32_ne _ _ _ _ (by intro i hi j hj; omega),
      read32_write32_same]
    norm_num
  refine ⟨?_, ?_, ?_, ?_⟩
  · simp [READ_EA_64, hmode3, hreg3]
  · simp [WRITE_EA_FPE, hmode4, hreg4, Function.update_same]
  · simp only [WRITE_EA_FPE, hmode4, hreg4]
    simp [Function.update_same, e1]
  · simp only [WRITE_EA_FPE, hmode4, hreg4]
    simp [Function.update_same, e2]

/-- Witness for C5 at a concrete register and state. -/
theorem postincrement_predecrement_timing_witness :
    (0 : Nat) < 8 ∧
    (WRITE_EA_FPE state0 (0x20 ||| 0) 0x0123456789abcdef).map
        (fun s2 => s2.REG_A 0) =
      some ((state0.REG_A 0 + (2 ^ 32 - 12)) % 2 ^ 32) :=
  ⟨by decide,
    (postincrement_predecrement_timing state0 0 0x0123456789abcdef (by decide)).2.1⟩

/-- C8 counterexample: the claim says a width-8 register-direct store
leaves the upper register bits unchanged, so writing 0xab to D0 holding
0xffffff00 should give 0xffffffab; the code assigns the zero-extended
datum, giving 0xab. -/
theorem write_reg_direct_counterexample :
    (WRITE_EA_8 stateD0 0x00 0xab).map (fun s2 => s2.REG_D 0) = some 0xab ∧
    (0xab : Nat) ≠ 0xffffffab := by
  constructor
  · rfl
  · decide

/-- C8 amended: a register-direct store at width 8 or 16 replaces the
whole data register with the zero-extended datum (upper bits cleared,
not preserved); address-register direct at width 32 replaces the full
32-bit register. -/
theorem write_reg_direct_amended (s : FpuState) (ea d : Nat) :
    ((ea >>> 3) &&& 7 = 0 →
      (WRITE_EA_8 s ea d).map (fun s2 => s2.REG_D (ea &&& 7)) = some (d % 2 ^ 8) ∧
      (WRITE_EA_16 s ea d).map (fun s2 => s2.REG_D (ea &&& 7)) = some (d % 2 ^ 16)) ∧
    ((ea >>> 3) &&& 7 = 1 →
      (WRITE_EA_32 s ea d).map (fun s2 => s2.REG_A (ea &&& 7)) = some (d % 2 ^ 32)) := by
  constructor
  · intro h
    constructor <;> simp [WRITE_EA_8, WRITE_EA_16, h, Function.update_same]
  · intro h
    simp [WRITE_EA_32, h, Function.update_same]

/-- Witness for C8's amended claim at concrete inputs. -/
theorem write_reg_direct_amended_witness :
    (((0x00 : Nat) >>> 3) &&& 7 = 0 ∧
      ((WRITE_EA_8 state0 0x00 0x1ab).map (fun s2 => s2.REG_D (0x00 &&& 7)) =
          some (0x1ab % 2 ^ 8) ∧
        (WRITE_EA_16 state0 0x00 0x1ab).map (fun s2 => s2.REG_D (0x00 &&& 7)) =
          some (0x1ab % 2 ^ 16))) ∧
    (((0x08 : Nat) >>> 3) &&& 7 = 1 ∧
      (WRITE_EA_32 state0 0x08 0x123).map (fun s2 => s2.REG_A (0x08 &&& 7)) =
        some (0x123 % 2 ^ 32)) :=
  ⟨⟨by decide, (write_reg_direct_amended state0 0x00 0x1ab).1 (by decide)⟩,
   ⟨by decide, (write_reg_direct_amended state0 0x08 0x123).2 (by decide)⟩⟩

/-- C9 counterexample: the round-trip cannot hold for address registers —
register-direct loads of an address register are a fatal decode error at
width 32 (READ_EA_32 has no mode-1 case), and register-direct stores of
an address register are fatal at widths 8 and 16. -/
theorem reg_direct_roundtrip_counterexample :
    (WRITE_EA_32 state0 0x08 5).bind (fun s2 => (READ_EA_32 s2 0x08).map Prod.fst) = none ∧
    WRITE_EA_8 state0 0x08 5 = none ∧
    WRITE_EA_16 state0 0x08 5 = none := by
  refine ⟨rfl, rfl, rfl⟩

/-- C9 amended: the store-then-load round-trip at widths 8, 16 and 32
holds for all 8 data registers via register-direct mode; for address
registers register-direct access is a fatal decode error on the load
side at every width. -/
theorem reg_direct_roundtrip_amended (s : FpuState) (r v : Nat) (hr : r < 8) :
    (v < 2 ^ 8 →
      (WRITE_EA_8 s r v).bind (fun s2 => (READ_EA_8 s2 r).map Prod.fst) = some v) ∧
    (v < 2 ^ 16 →
      (WRITE_EA_16 s r v).bind (fun s2 => (READ_EA_16 s2 r).map Prod.fst) = some v) ∧
    (v < 2 ^ 32 →
      (WRITE_EA_32 s r v).bind (fun s2 => (READ_EA_32 s2 r).map Prod.fst) = some v) ∧
    (READ_EA_32 s (0x08 ||| r) = none ∧ READ_EA_16 s (0x08 ||| r) = none ∧
      READ_EA_8 s (0x08 ||| r) = none) := by
  have hm : (r >>> 3) &&& 7 = 0 := by
    rw [Nat.shiftRight_eq_div_pow, Nat.div_eq_of_lt (by omega)]
    rfl
  have hreg : r &&& 7 = r := by
    have h7 : (7 : Nat) = 2 ^ 3 - 1 := by norm_num
    rw [h7, Nat.and_pow_two_sub_one_eq_mod, Nat.mod_eq_of_lt (by omega)]
  have hm1 : ((0x08 ||| r) >>> 3) &&& 7 = 1 := by interval_cases r <;> decide
  refine ⟨?_, ?_, ?_, ?_, ?_, ?_⟩
  · intro hv
    simp [WRITE_EA_8, READ_EA_8, hm, hreg, Function.update_same,
      Nat.mod_eq_of_lt hv]
    omega
  · intro hv
    simp [WRITE_EA_16, READ_EA_16, hm, hreg, Function.update_same,
      Nat.mod_eq_of_lt hv]
    omega
  · intro hv
    simp [WRITE_EA_32, READ_EA_32, hm, hreg, Function.update_same,
      Nat.mod_eq_of_lt hv]
    omega
  · simp [READ_EA_32, hm1]
  · simp [READ_EA_16, hm1]
  · simp [READ_EA_8, hm1]

/-- Witness for C9's amended claim at a concrete register and value. -/
theorem reg_direct_roundtrip_amended_witness :
    (3 : Nat) < 8 ∧ (0x55 : Nat) < 2 ^ 8 ∧
    (WRITE_EA_8 state0 3 0x55).bind (fun s2 => (READ_EA_8 s2 3).map Prod.fst) =
      some 0x55 :=
  ⟨by decide, by decide,
    (reg_direct_roundtrip_amended state0 3 0x55 (by decide)).1 (by decide)⟩

/-- C4: both conditional branches evaluate the 6-bit predicate from the
low bits of the first opcode word; they always charge 7 cycles; when the
predicate holds they branch relative by the fetched signed displacement
adjusted by -2 (16-bit form) or -4 (32-bit form) and reset trace
suppression; when it does not hold they do neither. -/
theorem fbcc_predicate_branch_cycles (s : FpuState) (b : Bool)
    (h : TEST_CONDITION s.REG_FPSR (s.REG_IR &&& 0x3f) = some b) :
    ((fbcc16 s).map (fun s2 => s2.cycles) = some (s.cycles + 7) ∧
     (fbcc32 s).map (fun s2 => s2.cycles) = some (s.cycles + 7)) ∧
    (b = true →
      (fbcc16 s).map (fun s2 => (s2.REG_PC, s2.traceT0Reset)) =
        some (wrapInt32 ((((s.REG_PC + 2) % 2 ^ 32 : Nat) : Int) +
          (signExt16 (m68ki_read_16 s.mem s.REG_PC) - 2)), true) ∧
      (fbcc32 s).map (fun s2 => (s2.REG_PC, s2.traceT0Reset)) =
        some (wrapInt32 ((((s.REG_PC + 4) % 2 ^ 32 : Nat) : Int) +
          (signExt32 (m68ki_read_32 s.mem s.REG_PC) - 4)), true)) ∧
    (b = false →
      (fbcc16 s).map (fun s2 => (s2.REG_PC, s2.traceT0Reset)) =
        some ((s.REG_PC + 2) % 2 ^ 32, s.traceT0Reset) ∧
      (fbcc32 s).map (fun s2 => (s2.REG_PC, s2.traceT0Reset)) =
        some ((s.REG_PC + 4) % 2 ^ 32, s.traceT0Reset)) := by
  cases b with
  | true =>
    refine ⟨⟨?_, ?_⟩, fun _ => ⟨?_, ?_⟩, fun hf => Bool.noConfusion hf⟩ <;>
      simp [fbcc16, fbcc32, OPER_I_16, OPER_I_32, h, USE_CYCLES,
        m68ki_branch_16, m68ki_branch_32, m68ki_trace_t0]
  | false =>
    refine ⟨⟨?_, ?_⟩, fun hf => Bool.noConfusion hf, fun _ => ⟨?_, ?_⟩⟩ <;>
      simp [fbcc16, fbcc32, OPER_I_16, OPER_I_32, h, USE_CYCLES,
        m68ki_branch_16, m68ki_branch_32, m68ki_trace_t0]

/-- Witness for C4: predicate 0x01 (Equal) with the Z flag set is a true
predicate, and the branch charges 7 cycles. -/
theorem fbcc_predicate_branch_cycles_witness :
    TEST_CONDITION stateFbcc.REG_FPSR (stateFbcc.REG_IR &&& 0x3f) = some true ∧
    (fbcc16 stateFbcc).map (fun s2 => s2.cycles) = some (stateFbcc.cycles + 7) :=
  ⟨by decide, (fbcc_predicate_branch_cycles stateFbcc true (by decide)).1.1⟩

theorem decide_and_shift_eq_testBit (x i : Nat) :
    decide (x &&& 1 <<< i ≠ 0) = x.testBit i := by
  have h2p : (1 <<< i : Nat) = 2 ^ i := by
    rw [Nat.shiftLeft_eq, Nat.one_mul]
  rw [h2p]
  by_cases hx : x &&& 2 ^ i ≠ 0
  · simp [hx, (and_two_pow_ne_zero x i).1 hx]
  · have ht : x.testBit i = false := by
      by_contra hb
      exact hx ((and_two_pow_ne_zero x i).2 (by simpa using hb))
    simp [hx, ht]

theorem foldlM_filter_if (p : Nat → Prop) [DecidablePred p]
    (f : FpuState → Nat → Option FpuState) :
    ∀ (l : List Nat) (s : FpuState),
      (l.filter (fun i => decide (p i))).foldlM f s =
        l.foldlM (fun st i => if p i then f st i else pure st) s := by
  intro l
  induction l with
  | nil => intro s; rfl
  | cons a l ih =>
    intro s
    by_cases hpa : p a
    · rw [List.filter_cons]
      simp only [hpa, decide_True, if_pos hpa, List.foldlM_cons]
      cases hfa : f s a with
      | none => simp [hfa]
      | some s2 => simp [hfa, ih s2]
    · rw [List.filter_cons]
      simp only [hpa, decide_False, if_neg hpa, List.foldlM_cons]
      simp [ih s]

/-- C6: fmovem coincides with the spec's description — register-to-memory
only for mode field 0 (predecrement), storing registers 0..7 in ascending
index order for set mask bits at 2 cycles each; memory-to-register only
for mode field 2 (postincrement), loading registers in descending index
order for ascending mask bits; all other mode fields are fatal in either
direction. -/
theorem fmovem_matches_spec (s : FpuState) (w2 : Nat) :
    fmovem s w2 = fmovemSpec s w2 := by
  simp only [fmovem, fmovemSpec, fmovemStoreStep, fmovemLoadStep]
  have hfun : (fun i => (w2 &&& 0xff).testBit i) =
      (fun i => decide ((w2 &&& 0xff) &&& 1 <<< i ≠ 0)) :=
    funext fun i => (decide_and_shift_eq_testBit _ i).symm
  split_ifs with h1 h2 h3
  · rw [hfun, foldlM_filter_if (fun i => (w2 &&& 0xff) &&& 1 <<< i ≠ 0)]
    rfl
  · rfl
  · rw [hfun, foldlM_filter_if (fun i => (w2 &&& 0xff) &&& 1 <<< i ≠ 0)]
    rfl
  · rfl

/-- C7 counterexample: the claim says the FMOVEM store with mask 0b11 and
predecrement addressing stores register 1 first, at the first
predecremented slot A0 - 12 = 0x1ff4, then register 0 below it; the code
stores register 0 first: the slot at 0x1ff4 holds FP0's high word
0x40000000, and FP1's high word 0x3ff00000 sits below it at 0x1fe8. -/
theorem fmovem_store_order_counterexample :
    (fmovem stateMovem 0x2003).map (fun s2 =>
      (m68ki_read_32 s2.mem 0x1ff4, m68ki_read_32 s2.mem 0x1fe8)) =
      some (0x40000000, 0x3ff00000) ∧ (0x40000000 : Nat) ≠ 0x3ff00000 := by
  constructor
  · rfl
  · decide

/-- C7 amended: the FMOVEM store with mask 0b11 and predecrement
addressing stores register 0 first at A0 - 12 and then register 1 at
A0 - 24 — ascending register index at descending addresses — charging
2 cycles per stored register for a total of 4; a single-register mask
charges 2. -/
theorem fmovem_store_order_amended :
    (fmovem stateMovem 0x2003).map (fun s2 =>
      (m68ki_read_32 s2.mem 0x1ff4, m68ki_read_32 s2.mem 0x1ff8,
       m68ki_read_32 s2.mem 0x1fe8, m68ki_read_32 s2.mem 0x1fec,
       s2.REG_A 0, s2.cycles)) =
      some (0x40000000, 0, 0x3ff00000, 0, 0x1fe8, 4) ∧
    (fmovem stateMovem 0x2001).map (fun s2 => s2.cycles) = some 2 := by
  constructor
  · rfl
  · rfl

/-- C3: in the ALU family with a register source, FSQRT, FABS, FNEG,
FADD, FMUL, FSUB, FCMP and FTST leave the FPSR equal to the
condition-code update computed from their own result, while FMOVE
(opmode 0x00) and FDIV (opmode 0x20) leave the FPSR unchanged. -/
theorem fpgen_rm_reg_flag_update (ops : FloatOps) (s : FpuState) (w2 : Nat)
    (hrm : (w2 >>> 14) &&& 1 = 0) :
    (w2 &&& 0x7f = 0x00 →
      (fpgen_rm_reg ops s w2).map (fun s2 => s2.REG_FPSR) = some s.REG_FPSR) ∧
    (w2 &&& 0x7f = 0x20 →
      (fpgen_rm_reg ops s w2).map (fun s2 => s2.REG_FPSR) = some s.REG_FPSR) ∧
    (w2 &&& 0x7f = 0x04 →
      (fpgen_rm_reg ops s w2).map (fun s2 => s2.REG_FPSR) =
        some (SET_CONDITION_CODES s.REG_FPSR
          (ops.fsqrt (s.REG_FP ((w2 >>> 10) &&& 7))))) ∧
    (w2 &&& 0x7f = 0x18 →
      (fpgen_rm_reg ops s w2).map (fun s2 => s2.REG_FPSR) =
        some (SET_CONDITION_CODES s.REG_FPSR
          (ops.fabs (s.REG_FP ((w2 >>> 10) &&& 7))))) ∧
    (w2 &&& 0x7f = 0x1a →
      (fpgen_rm_reg ops s w2).map (fun s2 => s2.REG_FPSR) =
        some (SET_CONDITION_CODES s.REG_FPSR
          (ops.fneg (s.REG_FP ((w2 >>> 10) &&& 7))))) ∧
    (w2 &&& 0x7f = 0x22 →
      (fpgen_rm_reg ops s w2).map (fun s2 => s2.REG_FPSR) =
        some (SET_CONDITION_CODES s.REG_FPSR
          (ops.fadd (s.REG_FP ((w2 >>> 7) &&& 7)) (s.REG_FP ((w2 >>> 10) &&& 7))))) ∧
    (w2 &&& 0x7f = 0x23 →
      (fpgen_rm_reg ops s w2).map (fun s2 => s2.REG_FPSR) =
        some (SET_CONDITION_CODES s.REG_FPSR
          (ops.fmul (s.REG_FP ((w2 >>> 7) &&& 7)) (s.REG_FP ((w2 >>> 10) &&& 7))))) ∧
    (w2 &&& 0x7f = 0x28 →
      (fpgen_rm_reg ops s w2).map (fun s2 => s2.REG_FPSR) =
        some (SET_CONDITION_CODES s.REG_FPSR
          (ops.fsub (s.REG_FP ((w2 >>> 7) &&& 7)) (s.REG_FP ((w2 >>> 10) &&& 7))))) ∧
    (w2 &&& 0x7f = 0x38 →
      (fpgen_rm_reg ops s w2).map (fun s2 => s2.REG_FPSR) =
        some (SET_CONDITION_CODES s.REG_FPSR
          (ops.fsub (s.REG_FP ((w2 >>> 7) &&& 7)) (s.REG_FP ((w2 >>> 10) &&& 7))))) ∧
    (w2 &&& 0x7f = 0x3a →
      (fpgen_rm_reg ops s w2).map (fun s2 => s2.REG_FPSR) =
        some (SET_CONDITION_CODES s.REG_FPSR (s.REG_FP ((w2 >>> 10) &&& 7)))) := by
  refine ⟨?_, ?_, ?_, ?_, ?_, ?_, ?_, ?_, ?_, ?_⟩ <;> intro h <;>
    simp [fpgen_rm_reg, fpgenSource, hrm, h, USE_CYCLES]

/-- Witness for C3: FADD (opmode 0x22) with register source updates the
condition codes from the sum. -/
theorem fpgen_rm_reg_flag_update_witness :
    ((0x22 : Nat) >>> 14) &&& 1 = 0 ∧ (0x22 : Nat) &&& 0x7f = 0x22 ∧
    (fpgen_rm_reg ops0 state0 0x22).map (fun s2 => s2.REG_FPSR) =
      some (SET_CONDITION_CODES state0.REG_FPSR
        (ops0.fadd (state0.REG_FP ((0x22 >>> 7) &&& 7))
          (state0.REG_FP ((0x22 >>> 10) &&& 7)))) :=
  ⟨by decide, by decide,
    (fpgen_rm_reg_flag_update ops0 state0 0x22
      (by decide)).2.2.2.2.2.1 (by decide)⟩

end Musashi
